import Mathlib

/-!
Shallow embedding of the multi-site WordPress MCP server
(`wordpress_mcp.py` and `additional_wordpress_tools.py`).

Python exceptions are modelled by the inductive `WPError`; each constructor
records which `raise` site fired, and `WPError.message` reproduces the exact
Python message string (`str(e)`).  Operations are modelled as pure functions
from their arguments, the registry state, and a network oracle
(`Net := WireRequest → RemoteOutcome`) to a result together with the list of
outbound wire requests actually issued.
-/

namespace WordPressMCP

/-- `class AuthMethod(Enum)` in `wordpress_mcp.py`. -/
inductive AuthMethod where
  | appPassword
  | basicAuth
deriving DecidableEq, Repr

/-- `AuthMethod.value` (the Python enum value string). -/
def AuthMethod.value : AuthMethod → String
  | .appPassword => "app-password"
  | .basicAuth => "basic-auth"

/-- `@dataclass class WordPressConfig` in `wordpress_mcp.py`. -/
structure WordPressConfig where
  id : String
  name : String
  site_url : String
  username : String
  app_password : String
  auth_method : AuthMethod
deriving DecidableEq, Repr

/-- Python repr of a list of strings, as produced by an f-string over
`list(self.clients.keys())`, e.g. `['a', 'b']`. -/
def pyStrListRepr (l : List String) : String :=
  "[" ++ String.intercalate ", " (l.map (fun x => "\x27" ++ x ++ "\x27")) ++ "]"

/-- The classified failures of the system.  Each constructor corresponds to
one `raise` site in the source; `WPError.message` gives the exact Python
message text. -/
inductive WPError where
  | unknownSite (site : String) (available : List String)
  | noSitesConfigured
  | ambiguousSite (available : List String)
  | invalidArgument (msg : String)
  | authenticationFailed (siteId : String)
  | permissionDenied (siteId : String)
  | resourceNotFound (endpoint : String)
  | remoteAPIError (status : Nat) (detail : String)
  | transportFailure (cause : String)
  | attributeError (typeName : String) (attr : String)
deriving DecidableEq, Repr

/-- `str(e)` for each raise site in the source. -/
def WPError.message : WPError → String
  | .unknownSite s available =>
      "Site \x27" ++ s ++ "\x27 not found. Available sites: " ++ pyStrListRepr available
  | .noSitesConfigured =>
      "No WordPress sites configured. Please check mcp-wordpress.config.json"
  | .ambiguousSite available =>
      "Multiple sites configured. Please specify \x27site\x27 parameter. Available sites: "
        ++ pyStrListRepr available
  | .invalidArgument m => m
  | .authenticationFailed siteId =>
      "Authentication failed for site \x27" ++ siteId ++ "\x27. Please check your credentials."
  | .permissionDenied siteId =>
      "Permission denied for site \x27" ++ siteId ++ "\x27. Check user permissions."
  | .resourceNotFound endpoint => "Endpoint not found: " ++ endpoint
  | .remoteAPIError status detail =>
      "WordPress API error (" ++ toString status ++ "): " ++ detail
  | .transportFailure cause => "Request failed: " ++ cause
  | .attributeError typeName attr =>
      "\x27" ++ typeName ++ "\x27 object has no attribute \x27" ++ attr ++ "\x27"

/-- The registry `WordPressManager.clients : Dict[str, WordPressConfig]`:
a Python dict, i.e. an insertion-ordered association list with unique keys. -/
abbrev Registry : Type := List (String × WordPressConfig)

/-- `list(self.clients.keys())`. -/
def Registry.keys (reg : Registry) : List String :=
  List.map Prod.fst reg

/-- `self.clients[k]` lookup (`k in self.clients` when `isSome`). -/
def Registry.find? (reg : Registry) (k : String) : Option WordPressConfig :=
  Option.map Prod.snd (List.find? (fun p => p.1 == k) reg)

/-- Well-formedness maintained by `load_config` (which stores each config
under `self.clients[config.id]`) and by the auth-switch path (which never
touches keys or ids): every stored configuration's `id` equals its key. -/
def Registry.WF (reg : Registry) : Prop :=
  ∀ p ∈ reg, (Prod.snd p).id = Prod.fst p

instance (reg : Registry) : Decidable (Registry.WF reg) :=
  decidable_of_iff (∀ p ∈ reg, (Prod.snd p).id = Prod.fst p) Iff.rfl

/-- Python truthiness of an `Optional[str]` (`if site:`): `None` and the
empty string are falsy. -/
def truthyStrOpt : Option String → Bool
  | some s => s != ""
  | none => false

/-- Python truthiness of an `Optional[int]` (`if author:`): `None` and `0`
are falsy. -/
def truthyIntOpt : Option Int → Bool
  | some n => n != 0
  | none => false

/-- Python truthiness of an `Optional[List[...]]`: `None` and `[]` are falsy. -/
def truthyListOpt {α : Type} : Option (List α) → Bool
  | some l => !l.isEmpty
  | none => false

/-- `WordPressManager.get_site_id` (`wordpress_mcp.py`, lines 142-157).
`if site:` uses Python truthiness, so a supplied empty string falls through
to the omitted-site branches. -/
def get_site_id (reg : Registry) (site : Option String) : Except WPError String :=
  if truthyStrOpt site then
    let s := site.getD ""
    if (reg.find? s).isSome then .ok s
    else .error (.unknownSite s reg.keys)
  else if reg.keys.length = 0 then .error .noSitesConfigured
  else if reg.keys.length = 1 then .ok (reg.keys.getD 0 "")
  else .error (.ambiguousSite reg.keys)

/-- `WordPressManager.get_client` (`wordpress_mcp.py`, lines 159-164); the
returned client is bound to the stored configuration, so we model it by the
configuration itself. -/
def get_client (reg : Registry) (site_id : String) : Except WPError WordPressConfig :=
  match reg.find? site_id with
  | some cfg => .ok cfg
  | none => .error (.unknownSite site_id reg.keys)

/-- `validate_positive_int` (`wordpress_mcp.py`, lines 171-179), applied to an
`int` argument (`int(value)` is the identity there).  The inner
`ValueError(f"... must be a positive integer")` raised for non-positive values
is itself caught by the `except (ValueError, TypeError)` clause of the same
`try`, so the surfaced message is always the `Invalid {name}` form. -/
def validate_positive_int (value : Int) (name : String) : Except WPError Int :=
  if value ≤ 0 then
    .error (.invalidArgument ("Invalid " ++ name ++ ": must be a positive integer"))
  else .ok value

/-- Decoded JSON values exchanged with the remote API (Python dict / list /
scalar values). -/
inductive PyValue where
  | str (s : String)
  | int (n : Int)
  | bool (b : Bool)
  | list (xs : List PyValue)
  | dict (fields : List (String × PyValue))
  | nullv
deriving Repr

/-- `json.dumps(..., default=str)` modulo whitespace: a canonical
serialization used by `format_response` for non-string payloads. -/
def pyDumps : PyValue → String
  | .str s => "\x22" ++ s ++ "\x22"
  | .int n => toString n
  | .bool b => if b then "true" else "false"
  | .nullv => "null"
  | .list xs => "[" ++ String.intercalate ", " (xs.attach.map (fun x => pyDumps x.1)) ++ "]"
  | .dict fs =>
      "\x7b" ++ String.intercalate ", "
        (fs.attach.map (fun p => "\x22" ++ p.1.1 ++ "\x22: " ++ pyDumps p.1.2)) ++ "\x7d"
decreasing_by
  · have := List.sizeOf_lt_of_mem x.2
    simp_all
    omega
  · have h := List.sizeOf_lt_of_mem p.2
    rcases p with ⟨⟨k, v⟩, hm⟩
    simp_all
    omega

/-- `format_response` (`wordpress_mcp.py`, lines 182-186): strings pass
through verbatim, everything else is JSON-serialized. -/
def format_response : PyValue → String
  | .str s => s
  | v => pyDumps v

/-- The uniform error envelope `{"status": "error", "message": str(e)}`. -/
def errDict (msg : String) : PyValue :=
  .dict [("status", .str "error"), ("message", .str msg)]

/-- Extract the `"status"` field of a dict payload when it is a string. -/
def statusOf : PyValue → Option String
  | .dict fs =>
      match List.find? (fun p => p.1 == "status") fs with
      | some (_, .str s) => some s
      | _ => none
  | _ => none

/-- `s.rstrip('/')` / `e.lstrip('/')`. -/
def rstripSlash (s : String) : String :=
  String.dropRightWhile s (fun c => c == '/')

def lstripSlash (s : String) : String :=
  String.dropWhile s (fun c => c == '/')

/-- `self.base_url = f"{config.site_url.rstrip('/')}/wp-json/wp/v2"`. -/
def clientBaseUrl (cfg : WordPressConfig) : String :=
  rstripSlash cfg.site_url ++ "/wp-json/wp/v2"

/-- One outbound HTTP request as handed to `self.session.request`. -/
structure WireRequest where
  method : String
  url : String
  params : List (String × PyValue)
  jsonBody : Option (List (String × PyValue))
  auth : String × String
deriving Repr

/-- What the network does with an issued request: a 2xx response (JSON or
not), a raised `httpx.HTTPStatusError` for a 4xx/5xx status (carrying the
optional remote `message` field of the error body and the exception text
`str(e)`), or a transport-level exception (`str(e)` given as `cause`). -/
inductive RemoteOutcome where
  | success (contentTypeJson : Bool) (json : PyValue) (text : String)
  | httpError (status : Nat) (remoteMessage : Option String) (excText : String)
  | transportError (cause : String)

/-- The environment: how the remote side answers each wire request. -/
def Net : Type := WireRequest → RemoteOutcome

/-- The `try`/`except` ladder of `WordPressClient.request`
(`wordpress_mcp.py`, lines 66-98): decode on 2xx, classify 401/403/404/other
on `HTTPStatusError`, wrap any other exception as `Request failed: ...`.
(The classified re-raises inside the `except httpx.HTTPStatusError` clause
propagate out of the `try`; they are not re-caught by the sibling
`except Exception` clause.) -/
def classifyOutcome (cfg : WordPressConfig) (endpoint : String) :
    RemoteOutcome → Except WPError PyValue
  | .success ctJson j text =>
      .ok (if ctJson then j else .dict [("content", .str text)])
  | .httpError status remoteMessage excText =>
      if status = 401 then .error (.authenticationFailed cfg.id)
      else if status = 403 then .error (.permissionDenied cfg.id)
      else if status = 404 then .error (.resourceNotFound endpoint)
      else .error (.remoteAPIError status (remoteMessage.getD excText))
  | .transportError cause => .error (.transportFailure cause)

/-- A step of an operation body: its outcome plus the outbound requests it
issued. -/
def OpStep (α : Type) : Type := Except WPError α × List WireRequest

def stepPure {α : Type} (a : α) : OpStep α := (.ok a, [])

def stepBind {α β : Type} (x : OpStep α) (f : α → OpStep β) : OpStep β :=
  match x with
  | (.ok a, tr) => let y := f a; (y.1, tr ++ y.2)
  | (.error e, tr) => (.error e, tr)

instance : Monad OpStep where
  pure := stepPure
  bind := stepBind

/-- Lift an exception-or-value that issues no request. -/
def liftE {α : Type} (x : Except WPError α) : OpStep α := (x, [])

def opThrow {α : Type} (e : WPError) : OpStep α := (.error e, [])

/-- The wire request `WordPressClient.request` hands to
`self.session.request`: `url = f"{self.base_url}/{endpoint.lstrip('/')}"`
with HTTP Basic auth `(username, app_password)` from the bound
configuration. -/
def builtRequest (cfg : WordPressConfig) (method endpoint : String)
    (params : List (String × PyValue)) (jsonBody : Option (List (String × PyValue))) :
    WireRequest :=
  { method := method
    url := clientBaseUrl cfg ++ "/" ++ lstripSlash endpoint
    params := params
    jsonBody := jsonBody
    auth := (cfg.username, cfg.app_password) }

/-- `WordPressClient.request` (`wordpress_mcp.py`, lines 66-98): build the
URL, attach HTTP Basic auth from the bound configuration, issue exactly one
request, then decode or classify. -/
def clientRequest (cfg : WordPressConfig) (net : Net) (method endpoint : String)
    (params : List (String × PyValue)) (jsonBody : Option (List (String × PyValue))) :
    OpStep PyValue :=
  let req := builtRequest cfg method endpoint params jsonBody
  (classifyOutcome cfg endpoint (net req), [req])

/-- The callable attributes `WordPressClient` actually defines
(`wordpress_mcp.py`, lines 48-98): only `request` issues HTTP (besides the
context-manager dunders and the private `_get_auth`). -/
def wordPressClientRequestMethods : List String := ["request"]

/-- Attribute dispatch on a `WordPressClient` instance, as used by
`additional_wordpress_tools.py` (`client.get(...)`, `client.post(...)`,
`client.put(...)`, `client.delete(...)`): accessing an attribute the class
does not define raises `AttributeError` before any request is built. -/
def clientMethodCall (cfg : WordPressConfig) (net : Net) (attr : String)
    (method endpoint : String) (params : List (String × PyValue))
    (jsonBody : Option (List (String × PyValue))) : OpStep PyValue :=
  if attr ∈ wordPressClientRequestMethods then
    clientRequest cfg net method endpoint params jsonBody
  else
    opThrow (.attributeError "WordPressClient" attr)

/-- The uniform `try: ... except Exception as e: return format_response(
\x7b"status": "error", "message": str(e)\x7d)` wrapper shared by every
operation. -/
def handleOp (body : OpStep PyValue) : String × List WireRequest :=
  match body with
  | (.ok v, tr) => (format_response v, tr)
  | (.error e, tr) => (format_response (errDict e.message), tr)

/-- `",".join(str(c) for c in l)`. -/
def joinInts (l : List Int) : String :=
  String.intercalate "," (l.map toString)

/-- `",".join(l)`. -/
def joinStrs (l : List String) : String :=
  String.intercalate "," l

/-- A query/body field included only when the guard (Python truthiness of the
supplied value) holds. -/
def condField (guard : Bool) (k : String) (v : PyValue) : List (String × PyValue) :=
  if guard then [(k, v)] else []

/-- A body field included when the supplied optional value `is not None`. -/
def someField (k : String) (v : Option PyValue) : List (String × PyValue) :=
  match v with
  | some x => [(k, x)]
  | none => []

/-- The `params` dict built by `wp_list_posts` (`wordpress_mcp.py`,
lines 618-634): fixed paging/sort fields, then each optional filter appended
only when truthy. -/
def wp_list_posts_params (per_page page : Int) (search status : Option String)
    (categories tags : Option (List Int)) (author : Option Int)
    (order orderby : String) : List (String × PyValue) :=
  [("per_page", .int (min per_page 100)), ("page", .int page),
   ("order", .str order), ("orderby", .str orderby)]
  ++ condField (truthyStrOpt search) "search" (.str (search.getD ""))
  ++ condField (truthyStrOpt status) "status" (.str (status.getD ""))
  ++ condField (truthyListOpt categories) "categories" (.str (joinInts (categories.getD [])))
  ++ condField (truthyListOpt tags) "tags" (.str (joinInts (tags.getD [])))
  ++ condField (truthyIntOpt author) "author" (.int (author.getD 0))

/-- `wp_list_posts` (`wordpress_mcp.py`, lines 584-644). -/
def wp_list_posts_body (reg : Registry) (net : Net) (per_page page : Int)
    (search status : Option String) (categories tags : Option (List Int))
    (author : Option Int) (order orderby : String) (site : Option String) :
    OpStep PyValue :=
  stepBind (liftE (get_site_id reg site)) fun site_id =>
  let params := wp_list_posts_params per_page page search status categories tags author order orderby
  stepBind (liftE (get_client reg site_id)) fun cfg =>
  clientRequest cfg net "GET" "/posts" params Option.none

def wp_list_posts (reg : Registry) (net : Net) (per_page page : Int)
    (search status : Option String) (categories tags : Option (List Int))
    (author : Option Int) (order orderby : String) (site : Option String) :
    String × List WireRequest :=
  handleOp (wp_list_posts_body reg net per_page page search status categories tags author order orderby site)

/-- The `params` dict built by `wp_list_pages` (`wordpress_mcp.py`,
lines 909-926). -/
def wp_list_pages_params (per_page page : Int) (search status : Option String)
    (author parent : Option Int) (order orderby : String) :
    List (String × PyValue) :=
  [("per_page", .int (min per_page 100)), ("page", .int page),
   ("order", .str order), ("orderby", .str orderby)]
  ++ condField (truthyStrOpt search) "search" (.str (search.getD ""))
  ++ condField (truthyStrOpt status) "status" (.str (status.getD ""))
  ++ condField (truthyIntOpt author) "author" (.int (author.getD 0))
  ++ condField (truthyIntOpt parent) "parent" (.int (parent.getD 0))

/-- `wp_list_pages` (`wordpress_mcp.py`, lines 880-936). -/
def wp_list_pages (reg : Registry) (net : Net) (per_page page : Int)
    (search status : Option String) (author parent : Option Int)
    (order orderby : String) (site : Option String) : String × List WireRequest :=
  handleOp
    (stepBind (liftE (get_site_id reg site)) fun site_id =>
     stepBind (liftE (get_client reg site_id)) fun cfg =>
     clientRequest cfg net "GET" "/pages"
       (wp_list_pages_params per_page page search status author parent order orderby) Option.none)

/-- The `params` dict built by `wp_list_users` (`wordpress_mcp.py`,
lines 1191-1206). -/
def wp_list_users_params (per_page page : Int) (search : Option String)
    (roles capabilities : Option (List String)) (order orderby : String) :
    List (String × PyValue) :=
  [("per_page", .int (min per_page 100)), ("page", .int page),
   ("order", .str order), ("orderby", .str orderby)]
  ++ condField (truthyStrOpt search) "search" (.str (search.getD ""))
  ++ condField (truthyListOpt roles) "roles" (.str (joinStrs (roles.getD [])))
  ++ condField (truthyListOpt capabilities) "capabilities" (.str (joinStrs (capabilities.getD [])))

/-- `wp_list_users` (`wordpress_mcp.py`, lines 1164-1216). -/
def wp_list_users (reg : Registry) (net : Net) (per_page page : Int)
    (search : Option String) (roles capabilities : Option (List String))
    (order orderby : String) (site : Option String) : String × List WireRequest :=
  handleOp
    (stepBind (liftE (get_site_id reg site)) fun site_id =>
     stepBind (liftE (get_client reg site_id)) fun cfg =>
     clientRequest cfg net "GET" "/users"
       (wp_list_users_params per_page page search roles capabilities order orderby) Option.none)

/-- The `params` dict built by `wp_list_comments` (`wordpress_mcp.py`,
lines 1470-1491). -/
def wp_list_comments_params (per_page page : Int)
    (search status : Option String) (post author : Option Int)
    (author_email : Option String) (parent : Option Int)
    (order orderby : String) : List (String × PyValue) :=
  [("per_page", .int (min per_page 100)), ("page", .int page),
   ("order", .str order), ("orderby", .str orderby)]
  ++ condField (truthyStrOpt search) "search" (.str (search.getD ""))
  ++ condField (truthyStrOpt status) "status" (.str (status.getD ""))
  ++ condField (truthyIntOpt post) "post" (.int (post.getD 0))
  ++ condField (truthyIntOpt author) "author" (.int (author.getD 0))
  ++ condField (truthyStrOpt author_email) "author_email" (.str (author_email.getD ""))
  ++ condField (truthyIntOpt parent) "parent" (.int (parent.getD 0))

/-- `wp_list_comments` (`wordpress_mcp.py`, lines 1455-1501). -/
def wp_list_comments (reg : Registry) (net : Net) (per_page page : Int)
    (search status : Option String) (post author : Option Int)
    (author_email : Option String) (parent : Option Int)
    (order orderby : String) (site : Option String) : String × List WireRequest :=
  handleOp
    (stepBind (liftE (get_site_id reg site)) fun site_id =>
     stepBind (liftE (get_client reg site_id)) fun cfg =>
     clientRequest cfg net "GET" "/comments"
       (wp_list_comments_params per_page page search status post author author_email parent order orderby)
       Option.none)

/-- The `params` dict built by `wp_search_site` (`wordpress_mcp.py`,
lines 441-453): `search` is a required field, then paging, then the truthy
optional filters. -/
def wp_search_site_params (search : String) (ty subtype : Option String)
    (per_page page : Int) : List (String × PyValue) :=
  [("search", .str search), ("per_page", .int (min per_page 100)), ("page", .int page)]
  ++ condField (truthyStrOpt ty) "type" (.str (ty.getD ""))
  ++ condField (truthyStrOpt subtype) "subtype" (.str (subtype.getD ""))

/-- `wp_search_site` (`wordpress_mcp.py`, lines 418-463). -/
def wp_search_site (reg : Registry) (net : Net) (search : String)
    (ty subtype : Option String) (per_page page : Int) (site : Option String) :
    String × List WireRequest :=
  handleOp
    (stepBind (liftE (get_site_id reg site)) fun site_id =>
     stepBind (liftE (get_client reg site_id)) fun cfg =>
     clientRequest cfg net "GET" "/search"
       (wp_search_site_params search ty subtype per_page page) Option.none)

/-- `wp_get_post` (`wordpress_mcp.py`, lines 647-671).  Note the source
resolves the site first and validates `post_id` second. -/
def wp_get_post_body (reg : Registry) (net : Net) (post_id : Int)
    (site : Option String) : OpStep PyValue :=
  stepBind (liftE (get_site_id reg site)) fun site_id =>
  stepBind (liftE (validate_positive_int post_id "post_id")) fun pid =>
  stepBind (liftE (get_client reg site_id)) fun cfg =>
  clientRequest cfg net "GET" ("/posts/" ++ toString pid) [] Option.none

def wp_get_post (reg : Registry) (net : Net) (post_id : Int)
    (site : Option String) : String × List WireRequest :=
  handleOp (wp_get_post_body reg net post_id site)

/-- The update payload built by `wp_update_post` (`wordpress_mcp.py`,
lines 770-786): each field is included when it `is not None`. -/
def wp_update_post_data (title content status excerpt : Option String)
    (categories tags : Option (List Int)) (meta : Option (List (String × PyValue)))
    (featured_media : Option Int) : List (String × PyValue) :=
  someField "title" (title.map .str)
  ++ someField "content" (content.map .str)
  ++ someField "status" (status.map .str)
  ++ someField "excerpt" (excerpt.map .str)
  ++ someField "categories" (categories.map (fun l => .list (l.map .int)))
  ++ someField "tags" (tags.map (fun l => .list (l.map .int)))
  ++ someField "meta" (meta.map .dict)
  ++ someField "featured_media" (featured_media.map .int)

/-- `wp_update_post` (`wordpress_mcp.py`, lines 735-799). -/
def wp_update_post_body (reg : Registry) (net : Net) (post_id : Int)
    (title content status excerpt : Option String)
    (categories tags : Option (List Int)) (meta : Option (List (String × PyValue)))
    (featured_media : Option Int) (site : Option String) : OpStep PyValue :=
  stepBind (liftE (get_site_id reg site)) fun site_id =>
  stepBind (liftE (validate_positive_int post_id "post_id")) fun pid =>
  let data := wp_update_post_data title content status excerpt categories tags meta featured_media
  stepBind
    (if data.isEmpty then
      opThrow (.invalidArgument "At least one field must be provided to update")
    else stepPure ()) fun _ =>
  stepBind (liftE (get_client reg site_id)) fun cfg =>
  clientRequest cfg net "POST" ("/posts/" ++ toString pid) [] (some data)

def wp_update_post (reg : Registry) (net : Net) (post_id : Int)
    (title content status excerpt : Option String)
    (categories tags : Option (List Int)) (meta : Option (List (String × PyValue)))
    (featured_media : Option Int) (site : Option String) : String × List WireRequest :=
  handleOp (wp_update_post_body reg net post_id title content status excerpt categories tags meta featured_media site)

/-- The update payload built by `wp_update_user` (`wordpress_mcp.py`,
lines 1372-1390). -/
def wp_update_user_data (username email password name first_name last_name
    nickname description : Option String) (roles : Option (List String)) :
    List (String × PyValue) :=
  someField "username" (username.map .str)
  ++ someField "email" (email.map .str)
  ++ someField "password" (password.map .str)
  ++ someField "name" (name.map .str)
  ++ someField "first_name" (first_name.map .str)
  ++ someField "last_name" (last_name.map .str)
  ++ someField "nickname" (nickname.map .str)
  ++ someField "description" (description.map .str)
  ++ someField "roles" (roles.map (fun l => .list (l.map .str)))

/-- `wp_update_user` (`wordpress_mcp.py`, lines 1335-1403). -/
def wp_update_user_body (reg : Registry) (net : Net) (user_id : Int)
    (username email password name first_name last_name nickname description : Option String)
    (roles : Option (List String)) (site : Option String) : OpStep PyValue :=
  stepBind (liftE (get_site_id reg site)) fun site_id =>
  stepBind (liftE (validate_positive_int user_id "user_id")) fun uid =>
  let data := wp_update_user_data username email password name first_name last_name nickname description roles
  stepBind
    (if data.isEmpty then
      opThrow (.invalidArgument "At least one field must be provided to update")
    else stepPure ()) fun _ =>
  stepBind (liftE (get_client reg site_id)) fun cfg =>
  clientRequest cfg net "POST" ("/users/" ++ toString uid) [] (some data)

def wp_update_user (reg : Registry) (net : Net) (user_id : Int)
    (username email password name first_name last_name nickname description : Option String)
    (roles : Option (List String)) (site : Option String) : String × List WireRequest :=
  handleOp (wp_update_user_body reg net user_id username email password name first_name last_name nickname description roles site)

/-- The update payload built by `wp_update_site_settings`
(`wordpress_mcp.py`, lines 383-402). -/
def wp_update_site_settings_data (title description url email timezone
    date_format time_format : Option String) (start_of_week : Option Int)
    (language : Option String) : List (String × PyValue) :=
  someField "title" (title.map .str)
  ++ someField "description" (description.map .str)
  ++ someField "url" (url.map .str)
  ++ someField "email" (email.map .str)
  ++ someField "timezone" (timezone.map .str)
  ++ someField "date_format" (date_format.map .str)
  ++ someField "time_format" (time_format.map .str)
  ++ someField "start_of_week" (start_of_week.map .int)
  ++ someField "language" (language.map .str)

/-- `wp_update_site_settings` (`wordpress_mcp.py`, lines 349-415): the
zero-field check raises `ValueError("At least one setting must be provided
to update")`. -/
def wp_update_site_settings_body (reg : Registry) (net : Net)
    (title description url email timezone date_format time_format : Option String)
    (start_of_week : Option Int) (language : Option String)
    (site : Option String) : OpStep PyValue :=
  stepBind (liftE (get_site_id reg site)) fun site_id =>
  let data := wp_update_site_settings_data title description url email timezone date_format time_format start_of_week language
  stepBind
    (if data.isEmpty then
      opThrow (.invalidArgument "At least one setting must be provided to update")
    else stepPure ()) fun _ =>
  stepBind (liftE (get_client reg site_id)) fun cfg =>
  clientRequest cfg net "POST" "/settings" [] (some data)

def wp_update_site_settings (reg : Registry) (net : Net)
    (title description url email timezone date_format time_format : Option String)
    (start_of_week : Option Int) (language : Option String)
    (site : Option String) : String × List WireRequest :=
  handleOp (wp_update_site_settings_body reg net title description url email timezone date_format time_format start_of_week language site)

/-- `wp_delete_user` (`wordpress_mcp.py`, lines 1406-1448). -/
def wp_delete_user_body (reg : Registry) (net : Net) (user_id : Int)
    (force : Bool) (reassign : Option Int) (site : Option String) : OpStep PyValue :=
  stepBind (liftE (get_site_id reg site)) fun site_id =>
  stepBind (liftE (validate_positive_int user_id "user_id")) fun uid =>
  let params := condField force "force" (.bool force)
    ++ condField (truthyIntOpt reassign) "reassign" (.int (reassign.getD 0))
  stepBind (liftE (get_client reg site_id)) fun cfg =>
  stepBind (clientRequest cfg net "DELETE" ("/users/" ++ toString uid) params Option.none)
    fun response =>
  stepPure (.dict [("status", .str "success"),
    ("message", .str ("User " ++ toString uid ++ " deleted successfully")),
    ("user", response)])

def wp_delete_user (reg : Registry) (net : Net) (user_id : Int)
    (force : Bool) (reassign : Option Int) (site : Option String) :
    String × List WireRequest :=
  handleOp (wp_delete_user_body reg net user_id force reassign site)

/-- The in-place mutation `config.username = ...; config.app_password = ...;
config.auth_method = ...` performed by `wp_switch_auth_method` on the
configuration object stored in `wp_manager.clients[site_id]`: keys, ids,
names, URLs and all other sites are untouched. -/
def switchedConfig (cfg : WordPressConfig) (username password : String)
    (am : AuthMethod) : WordPressConfig :=
  { cfg with username := username, app_password := password, auth_method := am }

def registryUpdateCreds (reg : Registry) (site_id username password : String)
    (am : AuthMethod) : Registry :=
  reg.map (fun p =>
    if p.1 == site_id then (p.1, switchedConfig p.2 username password am)
    else p)

/-- `AuthMethod(auth_method)` for the two values admitted by the preceding
guard. -/
def parsedAuthMethod (s : String) : AuthMethod :=
  if s = "app-password" then .appPassword else .basicAuth

/-- `wp_switch_auth_method` (`wordpress_mcp.py`, lines 270-318): validate the
method name, resolve the site, replace the three credential fields in place,
then issue one verification request with the new credentials.  A failed
verification is caught by the operation-level `except`, which returns the
error envelope without restoring the previous credentials.  The final
registry state is returned alongside the operation's output. -/
def wp_switch_auth_method (reg : Registry) (net : Net)
    (auth_method username password : String) (site : Option String) :
    (String × List WireRequest) × Registry :=
  if auth_method = "app-password" ∨ auth_method = "basic-auth" then
    match get_site_id reg site with
    | .error e => ((format_response (errDict e.message), []), reg)
    | .ok site_id =>
      let reg1 := registryUpdateCreds reg site_id username password (parsedAuthMethod auth_method)
      match get_client reg1 site_id with
      | .error e => ((format_response (errDict e.message), []), reg1)
      | .ok cfg =>
        match clientRequest cfg net "GET" "/" [] Option.none with
        | (.ok _, tr) =>
          ((format_response (.dict
              [("status", .str "success"),
               ("message", .str ("Authentication method switched to " ++ auth_method)),
               ("site_id", .str site_id),
               ("username", .str username),
               ("auth_method", .str auth_method)]), tr), reg1)
        | (.error e, tr) => ((format_response (errDict e.message), tr), reg1)
  else
    ((format_response (errDict
        "auth_method must be \x27app-password\x27 or \x27basic-auth\x27"), []), reg)

/-! Operations from `additional_wordpress_tools.py`.  These invoke
`client.get` / `client.post` / `client.put` / `client.delete`, attributes the
`WordPressClient` class does not define, via `clientMethodCall`. -/

/-- The `params` dict built by `wp_list_media`
(`additional_wordpress_tools.py`, lines 52-60). -/
def wp_list_media_params (per_page page : Int)
    (search media_type mime_type : Option String) (order orderby : String) :
    List (String × PyValue) :=
  [("per_page", .int (min per_page 100)), ("page", .int page),
   ("order", .str order), ("orderby", .str orderby)]
  ++ condField (truthyStrOpt search) "search" (.str (search.getD ""))
  ++ condField (truthyStrOpt media_type) "media_type" (.str (media_type.getD ""))
  ++ condField (truthyStrOpt mime_type) "mime_type" (.str (mime_type.getD ""))

/-- The success wrapper of `wp_list_media` (unreachable in practice because
`client.get` raises `AttributeError` first). -/
def mediaListWrap (response : PyValue) : PyValue :=
  .dict [("status", .str "success"),
    ("message", .str ("Retrieved "
      ++ (match response with
          | .list xs => toString xs.length
          | _ => "unknown number of")
      ++ " media files")),
    ("data", response)]

/-- `wp_list_media` (`additional_wordpress_tools.py`, lines 38-70). -/
def wp_list_media_body (reg : Registry) (net : Net) (per_page page : Int)
    (search media_type mime_type : Option String) (order orderby : String)
    (site : Option String) : OpStep PyValue :=
  stepBind (liftE (get_site_id reg site)) fun site_id =>
  let params := wp_list_media_params per_page page search media_type mime_type order orderby
  stepBind (liftE (get_client reg site_id)) fun cfg =>
  stepBind (clientMethodCall cfg net "get" "GET" "/media" params Option.none) fun response =>
  stepPure (mediaListWrap response)

def wp_list_media (reg : Registry) (net : Net) (per_page page : Int)
    (search media_type mime_type : Option String) (order orderby : String)
    (site : Option String) : String × List WireRequest :=
  handleOp (wp_list_media_body reg net per_page page search media_type mime_type order orderby site)

/-- `wp_get_category` (`additional_wordpress_tools.py`, lines 220-234). -/
def wp_get_category_body (reg : Registry) (net : Net) (category_id : Int)
    (site : Option String) : OpStep PyValue :=
  stepBind (liftE (get_site_id reg site)) fun site_id =>
  stepBind (liftE (validate_positive_int category_id "category_id")) fun cid =>
  stepBind (liftE (get_client reg site_id)) fun cfg =>
  stepBind (clientMethodCall cfg net "get" "GET" ("/categories/" ++ toString cid) [] Option.none)
    fun response =>
  stepPure (.dict [("category", response), ("site", .str site_id)])

def wp_get_category (reg : Registry) (net : Net) (category_id : Int)
    (site : Option String) : String × List WireRequest :=
  handleOp (wp_get_category_body reg net category_id site)

/-- `settings.get(key, default)` on a decoded JSON value, as used by
`wp_get_site_health` (only ever reached when `settings` is a dict, since the
`client.get` calls preceding it would have to succeed first). -/
def pyDictGet (v : PyValue) (k : String) (dflt : PyValue) : PyValue :=
  match v with
  | .dict fs =>
      match List.find? (fun p => p.1 == k) fs with
      | some p => p.2
      | none => dflt
  | _ => dflt

def pyLenIfList (v : PyValue) : Nat :=
  match v with
  | .list xs => xs.length
  | _ => 0

/-- `wp_get_site_health` (`additional_wordpress_tools.py`, lines 1109-1133):
a composite operation issuing three `client.get` calls in sequence. -/
def wp_get_site_health_body (reg : Registry) (net : Net) (site : Option String) :
    OpStep PyValue :=
  stepBind (liftE (get_site_id reg site)) fun site_id =>
  stepBind (liftE (get_client reg site_id)) fun cfg =>
  stepBind (clientMethodCall cfg net "get" "GET" "/settings" [] Option.none) fun settings =>
  stepBind (clientMethodCall cfg net "get" "GET" "/users" [("per_page", .int 1)] Option.none) fun users =>
  stepBind (clientMethodCall cfg net "get" "GET" "/posts" [("per_page", .int 1)] Option.none) fun posts =>
  stepPure (.dict
    [("site_title", pyDictGet settings "title" (.str "Unknown")),
     ("site_url", pyDictGet settings "url" (.str "Unknown")),
     ("wordpress_version", pyDictGet settings "wordpress_version" (.str "Unknown")),
     ("total_users", .int (pyLenIfList users)),
     ("total_posts", .int (pyLenIfList posts)),
     ("site", .str site_id),
     ("status", .str "healthy")])

def wp_get_site_health (reg : Registry) (net : Net) (site : Option String) :
    String × List WireRequest :=
  handleOp (wp_get_site_health_body reg net site)

/-- `wp_search_content` (`additional_wordpress_tools.py`, lines 1072-1107):
up to three `client.get` calls selected by `type`, with the caller-supplied
`per_page` passed through unclamped. -/
def wp_search_content_body (reg : Registry) (net : Net) (query ty : String)
    (per_page : Int) (site : Option String) : OpStep PyValue :=
  stepBind (liftE (get_site_id reg site)) fun site_id =>
  stepBind (liftE (get_client reg site_id)) fun cfg =>
  stepBind
    (if ty = "any" ∨ ty = "posts" then
      stepBind (clientMethodCall cfg net "get" "GET" "/posts"
          [("search", .str query), ("per_page", .int per_page)] Option.none) fun posts =>
      stepPure [("posts", posts)]
    else stepPure []) fun r1 =>
  stepBind
    (if ty = "any" ∨ ty = "pages" then
      stepBind (clientMethodCall cfg net "get" "GET" "/posts"
          [("search", .str query), ("per_page", .int per_page), ("post_type", .str "page")]
          Option.none) fun pages =>
      stepPure (r1 ++ [("pages", pages)])
    else stepPure r1) fun r2 =>
  stepBind
    (if ty = "any" ∨ ty = "media" then
      stepBind (clientMethodCall cfg net "get" "GET" "/media"
          [("search", .str query), ("per_page", .int per_page)] Option.none) fun media =>
      stepPure (r2 ++ [("media", media)])
    else stepPure r2) fun results =>
  stepPure (.dict [("search_query", .str query), ("results", .dict results),
    ("site", .str site_id)])

def wp_search_content (reg : Registry) (net : Net) (query ty : String)
    (per_page : Int) (site : Option String) : String × List WireRequest :=
  handleOp (wp_search_content_body reg net query ty per_page site)

/-- The fallback payload of `wp_get_plugins`. -/
def pluginsSimulated (site_id : String) : PyValue :=
  .dict [("status", .str "simulated"),
    ("message", .str "Plugin information requires admin access"),
    ("note", .str "This endpoint may not be available depending on site permissions"),
    ("site", .str site_id)]

/-- `wp_get_plugins` (`additional_wordpress_tools.py`, lines 1135-1161): the
`client.get` call sits inside an inner bare `except:` whose handler returns a
`status: "simulated"` payload, so the `AttributeError` never reaches the
operation-level handler. -/
def wp_get_plugins_body (reg : Registry) (net : Net) (status site : Option String) :
    OpStep PyValue :=
  stepBind (liftE (get_site_id reg site)) fun site_id =>
  stepBind (liftE (get_client reg site_id)) fun cfg =>
  match clientMethodCall cfg net "get" "GET" "/plugins" [] Option.none with
  | (.ok response, tr) =>
      (.ok (.dict [("plugins", response), ("site", .str site_id)]), tr)
  | (.error _, tr) => (.ok (pluginsSimulated site_id), tr)

def wp_get_plugins (reg : Registry) (net : Net) (status site : Option String) :
    String × List WireRequest :=
  handleOp (wp_get_plugins_body reg net status site)

/-- `params.get(k)`-style lookup on a built parameter/body dict. -/
def lookupParam (ps : List (String × PyValue)) (k : String) : Option PyValue :=
  Option.map Prod.snd (List.find? (fun p => p.1 == k) ps)

/-! Concrete sample data used by closed witnesses and counterexamples. -/

def cfgBlog : WordPressConfig :=
  { id := "blog", name := "My Blog", site_url := "https://example.com"
    username := "admin", app_password := "pw", auth_method := .appPassword }

def cfgShop : WordPressConfig :=
  { id := "shop", name := "My Shop", site_url := "https://shop.example.com"
    username := "root", app_password := "secret", auth_method := .basicAuth }

def sampleReg1 : Registry := [("blog", cfgBlog)]

def sampleReg2 : Registry := [("blog", cfgBlog), ("shop", cfgShop)]

/-- A network on which every request fails at the transport level. -/
def netNever : Net := fun _ => .transportError "unreachable"

/-- A network on which every request is answered with the given HTTP error
status (no remote `message` field, `str(e)` equal to `"boom"`). -/
def netStatus (status : Nat) : Net := fun _ => .httpError status Option.none "boom"

/-- The `AttributeError` message produced by `client.get` on a
`WordPressClient`. -/
def attrGetMsg : String := (WPError.attributeError "WordPressClient" "get").message

/-! Helper lemmas shared by the claim theorems. -/

theorem truthyStrOpt_empty_false : truthyStrOpt (some "") = false := rfl

theorem stepBind_err {α β : Type} (e : WPError) (tr : List WireRequest)
    (f : α → OpStep β) : stepBind (.error e, tr) f = (.error e, tr) := rfl

theorem stepBind_okv {α β : Type} (a : α) (tr : List WireRequest)
    (f : α → OpStep β) : stepBind (.ok a, tr) f = ((f a).1, tr ++ (f a).2) := rfl

theorem liftE_eq {α : Type} (x : Except WPError α) : liftE x = (x, []) := rfl

theorem handleOp_err (e : WPError) (tr : List WireRequest) :
    handleOp (.error e, tr) = (format_response (errDict e.message), tr) := rfl

theorem handleOp_okv (v : PyValue) (tr : List WireRequest) :
    handleOp (.ok v, tr) = (format_response v, tr) := rfl

theorem handleOp_spec (b : OpStep PyValue) :
    (∃ v, b.1 = .ok v ∧ handleOp b = (format_response v, b.2)) ∨
    (∃ e, b.1 = .error e ∧
      handleOp b = (format_response (errDict e.message), b.2)) := by
  rcases b with ⟨r, tr⟩
  cases r with
  | ok v => exact Or.inl ⟨v, rfl, rfl⟩
  | error e => exact Or.inr ⟨e, rfl, rfl⟩

theorem handleOp_fst_spec (b : OpStep PyValue) :
    (∃ v, b.1 = .ok v ∧ (handleOp b).1 = format_response v) ∨
    (∃ e, b.1 = .error e ∧ (handleOp b).1 = format_response (errDict e.message)) := by
  rcases handleOp_spec b with ⟨v, h1, h2⟩ | ⟨e, h1, h2⟩
  · exact Or.inl ⟨v, h1, by rw [h2]⟩
  · exact Or.inr ⟨e, h1, by rw [h2]⟩

theorem get_site_id_ok_find? {reg : Registry} {site : Option String} {sid : String}
    (h : get_site_id reg site = .ok sid) : ∃ cfg, reg.find? sid = some cfg := by
  unfold get_site_id at h
  by_cases ht : truthyStrOpt site = true
  · simp only [ht, if_true] at h
    by_cases hf : (reg.find? (site.getD "")).isSome
    · simp only [hf, if_true] at h
      cases h
      exact Option.isSome_iff_exists.mp hf
    · simp only [hf, if_false, Bool.false_eq_true] at h
      exact absurd h (by simp)
  · simp only [Bool.not_eq_true] at ht
    rw [ht] at h
    simp only [Bool.false_eq_true, if_false] at h
    rcases reg with _ | ⟨p, _ | ⟨q, t⟩⟩
    · simp [Registry.keys] at h
    · simp only [Registry.keys, List.map, List.length_cons, List.length_nil] at h
      norm_num at h
      cases h
      exact ⟨p.2, by simp [Registry.find?]⟩
    · simp [Registry.keys] at h

theorem get_client_of_find? {reg : Registry} {sid : String} {cfg : WordPressConfig}
    (h : reg.find? sid = some cfg) : get_client reg sid = .ok cfg := by
  simp [get_client, h]

theorem registryUpdateCreds_find?_self {reg : Registry} {sid : String}
    {cfg : WordPressConfig} (h : reg.find? sid = some cfg)
    (u p : String) (am : AuthMethod) :
    (registryUpdateCreds reg sid u p am).find? sid
      = some (switchedConfig cfg u p am) := by
  induction reg with
  | nil => simp [Registry.find?] at h
  | cons hd tl ih =>
    by_cases hk : (hd.1 == sid) = true
    · have hcfg : hd.2 = cfg := by
        simp [Registry.find?, List.find?, hk] at h
        exact h
      subst hcfg
      simp [registryUpdateCreds, Registry.find?, List.find?, hk]
    · have h' : Registry.find? tl sid = some cfg := by
        simpa [Registry.find?, List.find?, hk] using h
      have := ih h'
      simpa [registryUpdateCreds, Registry.find?, List.find?, hk] using this

theorem registryUpdateCreds_find?_other {reg : Registry} {sid k : String}
    (hk : k ≠ sid) (u p : String) (am : AuthMethod) :
    (registryUpdateCreds reg sid u p am).find? k = reg.find? k := by
  induction reg with
  | nil => rfl
  | cons hd tl ih =>
    by_cases hh : (hd.1 == sid) = true
    · have hks : ¬ (hd.1 == k) = true := by
        simp only [beq_iff_eq] at hh ⊢
        rw [hh]
        exact fun hc => hk hc.symm
      simp [registryUpdateCreds, Registry.find?, List.find?, hh, hks] at ih ⊢
      exact ih
    · by_cases hks : (hd.1 == k) = true
      · simp [registryUpdateCreds, Registry.find?, List.find?, hh, hks]
      · simp [registryUpdateCreds, Registry.find?, List.find?, hh, hks] at ih ⊢
        exact ih

/-! Claim theorems. -/

/-- Claim C1: site resolution (`WordPressManager.get_site_id`) follows the
four-case contract.  A requested id here is a supplied nonempty string (a
supplied empty string is falsy under `if site:` and is covered by the
empty-selector theorem): requested and present returns that site and the
stored configuration's id equals the requested id; requested and absent
fails with UnknownSite; omitted with exactly one configured site returns it
whatever its id; omitted with an empty registry fails with
NoSitesConfigured; omitted with two or more sites fails with AmbiguousSite
whose payload lists all configured site ids. -/
theorem get_site_id_four_case_contract (reg : Registry) (hwf : Registry.WF reg) :
    (∀ s cfg, s ≠ "" → reg.find? s = some cfg →
      get_site_id reg (some s) = .ok s ∧ cfg.id = s) ∧
    (∀ s, s ≠ "" → reg.find? s = Option.none →
      get_site_id reg (some s) = .error (.unknownSite s reg.keys)) ∧
    (∀ k cfg, reg = [(k, cfg)] → get_site_id reg Option.none = .ok k) ∧
    (reg = [] → get_site_id reg Option.none = .error .noSitesConfigured) ∧
    (2 ≤ reg.length → get_site_id reg Option.none = .error (.ambiguousSite reg.keys)) := by
  refine ⟨?_, ?_, ?_, ?_, ?_⟩
  · intro s cfg hne hfind
    refine ⟨by simp [get_site_id, truthyStrOpt, hne, hfind], ?_⟩
    rcases Option.map_eq_some'.mp hfind with ⟨q, hq, hq2⟩
    have hpred := List.find?_some hq
    have hmem := List.mem_of_find?_eq_some hq
    have hkey : q.1 = s := by simpa using hpred
    have hid := hwf q hmem
    rw [← hq2, hid, hkey]
  · intro s hne hfind
    simp [get_site_id, truthyStrOpt, hne, hfind]
  · intro k cfg hreg
    subst hreg
    simp [get_site_id, truthyStrOpt, Registry.keys]
  · intro hreg
    subst hreg
    simp [get_site_id, truthyStrOpt, Registry.keys]
  · intro hlen
    have h0 : ¬ reg.keys.length = 0 := by
      simp only [Registry.keys, List.length_map]
      omega
    have h1 : ¬ reg.keys.length = 1 := by
      simp only [Registry.keys, List.length_map]
      omega
    simp [get_site_id, truthyStrOpt, h0, h1]

/-- Closed witness for the four-case contract at concrete registries. -/
theorem get_site_id_four_case_contract_witness :
    (get_site_id sampleReg2 (some "shop") = .ok "shop" ∧ cfgShop.id = "shop") ∧
    get_site_id sampleReg2 (some "nope")
      = .error (.unknownSite "nope" ["blog", "shop"]) ∧
    get_site_id sampleReg1 Option.none = .ok "blog" ∧
    get_site_id ([] : Registry) Option.none = .error .noSitesConfigured ∧
    get_site_id sampleReg2 Option.none = .error (.ambiguousSite ["blog", "shop"]) := by
  have h2 := get_site_id_four_case_contract sampleReg2 (by decide)
  have h1 := get_site_id_four_case_contract sampleReg1 (by decide)
  have h0 := get_site_id_four_case_contract ([] : Registry) (by decide)
  refine ⟨?_, ?_, h1.2.2.1 "blog" cfgBlog rfl, h0.2.2.2.1 rfl, ?_⟩
  · have := h2.1 "shop" cfgShop (by decide) (by decide)
    exact ⟨this.1, this.2⟩
  · have := h2.2.1 "nope" (by decide) (by decide)
    simpa [sampleReg2, Registry.keys] using this
  · have := h2.2.2.2.2 (by decide)
    simpa [sampleReg2, Registry.keys] using this

/-- Claim C10: supplying the empty string as the site selector is treated
exactly as omitting it (`if site:` is falsy on `""`): one configured site is
returned, zero sites fail with NoSitesConfigured, two or more fail with
AmbiguousSite, and the result is never an UnknownSite failure even though
the empty string is not a configured id. -/
theorem empty_site_selector_as_omitted (reg : Registry) :
    get_site_id reg (some "") = get_site_id reg Option.none ∧
    (∀ k cfg, reg = [(k, cfg)] → get_site_id reg (some "") = .ok k) ∧
    (reg = [] → get_site_id reg (some "") = .error .noSitesConfigured) ∧
    (2 ≤ reg.length → get_site_id reg (some "") = .error (.ambiguousSite reg.keys)) ∧
    (∀ s available, get_site_id reg (some "") ≠ .error (.unknownSite s available)) := by
  refine ⟨by simp [get_site_id, truthyStrOpt], ?_, ?_, ?_, ?_⟩
  · intro k cfg hreg
    subst hreg
    simp [get_site_id, truthyStrOpt, Registry.keys]
  · intro hreg
    subst hreg
    simp [get_site_id, truthyStrOpt, Registry.keys]
  · intro hlen
    have h0 : ¬ reg.keys.length = 0 := by
      simp only [Registry.keys, List.length_map]
      omega
    have h1 : ¬ reg.keys.length = 1 := by
      simp only [Registry.keys, List.length_map]
      omega
    simp [get_site_id, truthyStrOpt, h0, h1]
  · intro s available
    simp only [get_site_id, truthyStrOpt_empty_false, Bool.false_eq_true, if_false]
    split_ifs <;> simp

/-- Closed witness for the empty-selector behaviour at concrete
registries. -/
theorem empty_site_selector_as_omitted_witness :
    get_site_id sampleReg1 (some "") = .ok "blog" ∧
    get_site_id ([] : Registry) (some "") = .error .noSitesConfigured ∧
    get_site_id sampleReg2 (some "") = .error (.ambiguousSite ["blog", "shop"]) ∧
    get_site_id sampleReg2 (some "") ≠ .error (.unknownSite "" ["blog", "shop"]) := by
  refine ⟨(empty_site_selector_as_omitted sampleReg1).2.1 "blog" cfgBlog rfl,
    (empty_site_selector_as_omitted ([] : Registry)).2.2.1 rfl, ?_,
    (empty_site_selector_as_omitted sampleReg2).2.2.2.2 "" ["blog", "shop"]⟩
  have := (empty_site_selector_as_omitted sampleReg2).2.2.2.1 (by decide)
  simpa [sampleReg2, Registry.keys] using this

/-- Claim C5: a 4xx/5xx remote response is classified by status code into
the closed taxonomy: 401 yields AuthenticationFailed, 403 yields
PermissionDenied, 404 yields ResourceNotFound with a message referencing the
attempted endpoint path, and any other 4xx/5xx yields RemoteAPIError
carrying the numeric status and the remote-supplied message; each produced
kind carries the stated human-readable message, and exactly the one
attempted request was issued. -/
theorem remote_status_classification (cfg : WordPressConfig) (net : Net)
    (method endpoint : String) (params : List (String × PyValue))
    (jsonBody : Option (List (String × PyValue)))
    (status : Nat) (remoteMessage : Option String) (excText : String)
    (h400 : 400 ≤ status) (h599 : status ≤ 599)
    (hnet : net (builtRequest cfg method endpoint params jsonBody)
      = .httpError status remoteMessage excText) :
    (clientRequest cfg net method endpoint params jsonBody).2
      = [builtRequest cfg method endpoint params jsonBody] ∧
    (status = 401 →
      (clientRequest cfg net method endpoint params jsonBody).1
        = .error (.authenticationFailed cfg.id) ∧
      (WPError.authenticationFailed cfg.id).message
        = "Authentication failed for site \x27" ++ cfg.id
          ++ "\x27. Please check your credentials.") ∧
    (status = 403 →
      (clientRequest cfg net method endpoint params jsonBody).1
        = .error (.permissionDenied cfg.id) ∧
      (WPError.permissionDenied cfg.id).message
        = "Permission denied for site \x27" ++ cfg.id
          ++ "\x27. Check user permissions.") ∧
    (status = 404 →
      (clientRequest cfg net method endpoint params jsonBody).1
        = .error (.resourceNotFound endpoint) ∧
      (WPError.resourceNotFound endpoint).message
        = "Endpoint not found: " ++ endpoint) ∧
    (status ≠ 401 → status ≠ 403 → status ≠ 404 →
      (clientRequest cfg net method endpoint params jsonBody).1
        = .error (.remoteAPIError status (remoteMessage.getD excText)) ∧
      (WPError.remoteAPIError status (remoteMessage.getD excText)).message
        = "WordPress API error (" ++ toString status ++ "): "
          ++ remoteMessage.getD excText ∧
      (∀ m, remoteMessage = some m → remoteMessage.getD excText = m)) := by
  have hfst : (clientRequest cfg net method endpoint params jsonBody).1
      = classifyOutcome cfg endpoint (.httpError status remoteMessage excText) := by
    show classifyOutcome cfg endpoint
        (net (builtRequest cfg method endpoint params jsonBody)) = _
    rw [hnet]
  refine ⟨rfl, ?_, ?_, ?_, ?_⟩
  · intro h
    subst h
    exact ⟨by rw [hfst]; simp [classifyOutcome], rfl⟩
  · intro h
    subst h
    exact ⟨by rw [hfst]; simp [classifyOutcome], rfl⟩
  · intro h
    subst h
    exact ⟨by rw [hfst]; simp [classifyOutcome], rfl⟩
  · intro h1 h2 h3
    refine ⟨by rw [hfst]; simp [classifyOutcome, h1, h2, h3], rfl, ?_⟩
    intro m hm
    rw [hm]
    rfl

/-- Closed witness for the classification at concrete statuses. -/
theorem remote_status_classification_witness :
    (clientRequest cfgBlog (netStatus 404) "GET" "/posts/7" [] Option.none).1
      = .error (.resourceNotFound "/posts/7") ∧
    (clientRequest cfgBlog (netStatus 401) "GET" "/" [] Option.none).1
      = .error (.authenticationFailed cfgBlog.id) ∧
    (clientRequest cfgBlog (netStatus 500) "GET" "/" [] Option.none).1
      = .error (.remoteAPIError 500 "boom") := by
  have h404 := remote_status_classification cfgBlog (netStatus 404) "GET" "/posts/7"
    [] Option.none 404 Option.none "boom" (by norm_num) (by norm_num) rfl
  have h401 := remote_status_classification cfgBlog (netStatus 401) "GET" "/"
    [] Option.none 401 Option.none "boom" (by norm_num) (by norm_num) rfl
  have h500 := remote_status_classification cfgBlog (netStatus 500) "GET" "/"
    [] Option.none 500 Option.none "boom" (by norm_num) (by norm_num) rfl
  refine ⟨(h404.2.2.2.1 rfl).1, (h401.2.1 rfl).1, ?_⟩
  have := (h500.2.2.2.2 (by norm_num) (by norm_num) (by norm_num)).1
  simpa using this

/-- Claim C4 counterexample: with an empty registry and identifier 0,
`wp_get_post` fails with NoSitesConfigured rather than InvalidArgument,
because the source resolves the site (the claim's step 2) before validating
the identifier (the claim's step 1). -/
theorem site_resolved_before_id_validation_cex :
    wp_get_post_body ([] : Registry) netNever 0 Option.none
      = (.error .noSitesConfigured, []) ∧
    WPError.noSitesConfigured
      ≠ .invalidArgument "Invalid post_id: must be a positive integer" := by
  exact ⟨rfl, by decide⟩

/-- Claim C4 (amended): whenever site resolution succeeds, supplying a
non-positive identifier (e.g. 0) to a by-id operation fails with
InvalidArgument and no network call is made; the validation runs after site
resolution (step 2), not before it. -/
theorem nonpositive_id_invalid_argument_no_request (reg : Registry) (net : Net)
    (site : Option String) (sid : String) (hsite : get_site_id reg site = .ok sid)
    (post_id user_id : Int) (hp : post_id ≤ 0) (hu : user_id ≤ 0)
    (title content status excerpt : Option String)
    (categories tags : Option (List Int)) (meta : Option (List (String × PyValue)))
    (featured_media : Option Int) (force : Bool) (reassign : Option Int) :
    wp_get_post reg net post_id site
      = (format_response (errDict "Invalid post_id: must be a positive integer"), []) ∧
    wp_update_post reg net post_id title content status excerpt categories tags
        meta featured_media site
      = (format_response (errDict "Invalid post_id: must be a positive integer"), []) ∧
    wp_delete_user reg net user_id force reassign site
      = (format_response (errDict "Invalid user_id: must be a positive integer"), []) := by
  have hvp : validate_positive_int post_id "post_id"
      = .error (.invalidArgument "Invalid post_id: must be a positive integer") := by
    simp [validate_positive_int, hp]
  have hvu : validate_positive_int user_id "user_id"
      = .error (.invalidArgument "Invalid user_id: must be a positive integer") := by
    simp [validate_positive_int, hu]
  refine ⟨?_, ?_, ?_⟩
  · simp [wp_get_post, wp_get_post_body, hsite, hvp, liftE, stepBind, handleOp,
      WPError.message]
  · simp [wp_update_post, wp_update_post_body, hsite, hvp, liftE, stepBind,
      handleOp, WPError.message]
  · simp [wp_delete_user, wp_delete_user_body, hsite, hvu, liftE, stepBind,
      handleOp, WPError.message]

/-- Closed witness: identifier 0 on the single-site registry. -/
theorem nonpositive_id_invalid_argument_no_request_witness :
    wp_get_post sampleReg1 netNever 0 Option.none
      = (format_response (errDict "Invalid post_id: must be a positive integer"), []) ∧
    wp_delete_user sampleReg1 netNever 0 false Option.none Option.none
      = (format_response (errDict "Invalid user_id: must be a positive integer"), []) := by
  have h := nonpositive_id_invalid_argument_no_request sampleReg1 netNever
    Option.none "blog" rfl 0 0 (by norm_num) (by norm_num)
    Option.none Option.none Option.none Option.none Option.none Option.none
    Option.none Option.none false Option.none
  exact ⟨h.1, h.2.2⟩

/-- Claim C8 counterexample: the zero-field update rejection carries the
message "At least one field must be provided to update", not the claimed
"no fields to update". -/
theorem zero_field_update_message_cex :
    (wp_update_post_body sampleReg1 netNever 1 Option.none Option.none Option.none
        Option.none Option.none Option.none Option.none Option.none Option.none).1
      = .error (.invalidArgument "At least one field must be provided to update") ∧
    "At least one field must be provided to update" ≠ "no fields to update" := by
  exact ⟨rfl, by decide⟩

/-- Claim C8 (amended): an update request supplying no updatable field fails
with InvalidArgument and no network call; the distinct message is
"At least one field must be provided to update" (for
wp_update_site_settings: "At least one setting must be provided to
update"). -/
theorem zero_field_update_invalid_argument (reg : Registry) (net : Net)
    (site : Option String) (sid : String) (hsite : get_site_id reg site = .ok sid)
    (post_id user_id : Int) (hp : 0 < post_id) (hu : 0 < user_id) :
    wp_update_post reg net post_id Option.none Option.none Option.none Option.none
        Option.none Option.none Option.none Option.none site
      = (format_response (errDict "At least one field must be provided to update"), []) ∧
    wp_update_user reg net user_id Option.none Option.none Option.none Option.none
        Option.none Option.none Option.none Option.none Option.none site
      = (format_response (errDict "At least one field must be provided to update"), []) ∧
    wp_update_site_settings reg net Option.none Option.none Option.none Option.none
        Option.none Option.none Option.none Option.none Option.none site
      = (format_response (errDict "At least one setting must be provided to update"), []) := by
  have hvp : validate_positive_int post_id "post_id" = .ok post_id := by
    simp [validate_positive_int]
    omega
  have hvu : validate_positive_int user_id "user_id" = .ok user_id := by
    simp [validate_positive_int]
    omega
  refine ⟨?_, ?_, ?_⟩
  · simp [wp_update_post, wp_update_post_body, wp_update_post_data, hsite, hvp,
      liftE, stepBind, handleOp, someField, opThrow, WPError.message]
  · simp [wp_update_user, wp_update_user_body, wp_update_user_data, hsite, hvu,
      liftE, stepBind, handleOp, someField, opThrow, WPError.message]
  · simp [wp_update_site_settings, wp_update_site_settings_body,
      wp_update_site_settings_data, hsite, liftE, stepBind, handleOp, someField,
      opThrow, WPError.message]

/-- Closed witness: zero-field updates on the single-site registry. -/
theorem zero_field_update_invalid_argument_witness :
    wp_update_post sampleReg1 netNever 1 Option.none Option.none Option.none
        Option.none Option.none Option.none Option.none Option.none Option.none
      = (format_response (errDict "At least one field must be provided to update"), []) ∧
    wp_update_site_settings sampleReg1 netNever Option.none Option.none Option.none
        Option.none Option.none Option.none Option.none Option.none Option.none
        Option.none
      = (format_response (errDict "At least one setting must be provided to update"), []) := by
  have h := zero_field_update_invalid_argument sampleReg1 netNever Option.none
    "blog" rfl 1 1 (by norm_num) (by norm_num)
  exact ⟨h.1, h.2.2⟩

/-- Claim C6 counterexample: the `search` filter of wp_list_posts, explicitly
supplied as the empty string, is not included in the outbound parameters
(Python `if search:` is falsy on `""`), contradicting the claim that an
explicitly supplied empty string is included. -/
theorem empty_string_filter_not_included_cex :
    (some "" : Option String) ≠ Option.none ∧
    lookupParam (wp_list_posts_params 10 1 (some "") Option.none Option.none
      Option.none Option.none "desc" "date") "search" = Option.none := by
  exact ⟨by decide, rfl⟩

/-- Claim C6 (amended): an optional filter of wp_list_posts appears in the
outbound parameters iff the supplied value is Python-truthy: the field is
absent when the parameter is omitted, and also absent when it is supplied as
the empty string, the empty list, or zero; a truthy value is included. -/
theorem optional_filter_truthy_iff (per_page page : Int)
    (search status : Option String) (categories tags : Option (List Int))
    (author : Option Int) (order orderby : String) :
    lookupParam (wp_list_posts_params per_page page search status categories tags
        author order orderby) "search"
      = (if truthyStrOpt search then some (.str (search.getD "")) else Option.none) ∧
    lookupParam (wp_list_posts_params per_page page search status categories tags
        author order orderby) "status"
      = (if truthyStrOpt status then some (.str (status.getD "")) else Option.none) ∧
    lookupParam (wp_list_posts_params per_page page search status categories tags
        author order orderby) "categories"
      = (if truthyListOpt categories then some (.str (joinInts (categories.getD [])))
         else Option.none) ∧
    lookupParam (wp_list_posts_params per_page page search status categories tags
        author order orderby) "tags"
      = (if truthyListOpt tags then some (.str (joinInts (tags.getD [])))
         else Option.none) ∧
    lookupParam (wp_list_posts_params per_page page search status categories tags
        author order orderby) "author"
      = (if truthyIntOpt author then some (.int (author.getD 0)) else Option.none) := by
  cases h1 : truthyStrOpt search <;> cases h2 : truthyStrOpt status <;>
    cases h3 : truthyListOpt categories <;> cases h4 : truthyListOpt tags <;>
    cases h5 : truthyIntOpt author <;>
    simp [wp_list_posts_params, lookupParam, condField, h1, h2, h3, h4, h5,
      List.find?_append, List.find?]

theorem wp_search_content_sends_nothing (reg : Registry) (net : Net)
    (query ty : String) (per_page : Int) (site : Option String) :
    (wp_search_content reg net query ty per_page site).2 = [] := by
  unfold wp_search_content wp_search_content_body
  cases hs : get_site_id reg site with
  | error e => simp [hs, liftE, stepBind, handleOp]
  | ok sid =>
    cases hc : get_client reg sid with
    | error e => simp [hs, hc, liftE, stepBind, handleOp]
    | ok cfg =>
      simp only [hs, hc, liftE, stepBind]
      split_ifs <;>
        simp [hs, hc, clientMethodCall, wordPressClientRequestMethods, opThrow,
          stepBind, stepPure, handleOp]

/-- Claim C7: every embedded list operation sends `per_page = min(per_page,
100)`, which never exceeds 100 and equals the request exactly when it is at
most 100; `wp_search_content`, which omits the clamp in its parameter dict,
never issues an outbound request at all, so no outbound per_page above 100
can originate from it either. -/
theorem page_size_clamped :
    (∀ per_page page search status categories tags author order orderby,
      lookupParam (wp_list_posts_params per_page page search status categories
          tags author order orderby) "per_page"
        = some (.int (min per_page 100))) ∧
    (∀ per_page page search status author parent order orderby,
      lookupParam (wp_list_pages_params per_page page search status author parent
          order orderby) "per_page"
        = some (.int (min per_page 100))) ∧
    (∀ per_page page search roles capabilities order orderby,
      lookupParam (wp_list_users_params per_page page search roles capabilities
          order orderby) "per_page"
        = some (.int (min per_page 100))) ∧
    (∀ per_page page search status post author author_email parent order orderby,
      lookupParam (wp_list_comments_params per_page page search status post author
          author_email parent order orderby) "per_page"
        = some (.int (min per_page 100))) ∧
    (∀ search ty subtype per_page page,
      lookupParam (wp_search_site_params search ty subtype per_page page) "per_page"
        = some (.int (min per_page 100))) ∧
    (∀ per_page page search media_type mime_type order orderby,
      lookupParam (wp_list_media_params per_page page search media_type mime_type
          order orderby) "per_page"
        = some (.int (min per_page 100))) ∧
    (∀ per_page : Int, min per_page 100 ≤ 100) ∧
    (∀ per_page : Int, per_page ≤ 100 → min per_page 100 = per_page) ∧
    (∀ reg net query ty per_page site,
      (wp_search_content reg net query ty per_page site).2 = []) := by
  refine ⟨?_, ?_, ?_, ?_, ?_, ?_,
    fun pp => min_le_right pp 100, fun pp h => min_eq_left h,
    wp_search_content_sends_nothing⟩
  · intro per_page page search status categories tags author order orderby
    simp [wp_list_posts_params, lookupParam, List.find?_append, List.find?]
  · intro per_page page search status author parent order orderby
    simp [wp_list_pages_params, lookupParam, List.find?_append, List.find?]
  · intro per_page page search roles capabilities order orderby
    simp [wp_list_users_params, lookupParam, List.find?_append, List.find?]
  · intro per_page page search status post author author_email parent order orderby
    simp [wp_list_comments_params, lookupParam, List.find?_append, List.find?]
  · intro search ty subtype per_page page
    simp [wp_search_site_params, lookupParam, List.find?_append, List.find?]
  · intro per_page page search media_type mime_type order orderby
    simp [wp_list_media_params, lookupParam, List.find?_append, List.find?]

/-- Closed witness: per_page 500 is sent as 100, per_page 5 as 5. -/
theorem page_size_clamped_witness :
    lookupParam (wp_list_posts_params 500 1 Option.none Option.none Option.none
      Option.none Option.none "desc" "date") "per_page" = some (.int 100) ∧
    lookupParam (wp_list_posts_params 5 1 Option.none Option.none Option.none
      Option.none Option.none "desc" "date") "per_page" = some (.int 5) := by
  have h := page_size_clamped
  constructor
  · have h500 := h.1 500 1 Option.none Option.none Option.none Option.none
      Option.none "desc" "date"
    rw [h500]
    norm_num
  · have h5 := h.1 5 1 Option.none Option.none Option.none Option.none
      Option.none "desc" "date"
    have hmin := h.2.2.2.2.2.2.2.1 5 (by norm_num)
    rw [h5, hmin]

/-- Claim C2 counterexample: wp_get_plugins issues a network call through
`client.get`, yet on the resulting AttributeError it returns a
`status: "simulated"` payload (its inner bare `except:` swallows the
failure), not the `status: "error"` envelope the claim asserts for every
such operation. -/
theorem wp_get_plugins_simulated_not_error_cex :
    wp_get_plugins_body sampleReg1 netNever Option.none Option.none
      = (.ok (pluginsSimulated "blog"), []) ∧
    statusOf (pluginsSimulated "blog") = some "simulated" ∧
    statusOf (pluginsSimulated "blog") ≠ some "error" ∧
    statusOf (errDict "x") = some "error" := by
  exact ⟨rfl, rfl, by decide, rfl⟩

/-- Claim C2 (amended): whenever site resolution succeeds, each embedded
operation of additional_wordpress_tools.py that reaches its client call
returns the error envelope carrying the AttributeError message
(`WordPressClient` defines only `request`, so `client.get` raises before any
request is built) and issues no outbound request — except wp_get_plugins,
which likewise issues no request but swallows the AttributeError in an inner
bare `except:` and returns a `status: "simulated"` payload. -/
theorem additional_tools_attribute_error_no_request (reg : Registry) (net : Net)
    (site : Option String) (sid : String) (hsite : get_site_id reg site = .ok sid)
    (per_page page : Int) (search media_type mime_type : Option String)
    (order orderby : String) (category_id : Int) (hcid : 0 < category_id)
    (query : String) (per_page2 : Int) (pstatus : Option String) :
    wp_list_media reg net per_page page search media_type mime_type order orderby site
      = (format_response (errDict attrGetMsg), []) ∧
    wp_get_category reg net category_id site
      = (format_response (errDict attrGetMsg), []) ∧
    wp_get_site_health reg net site = (format_response (errDict attrGetMsg), []) ∧
    wp_search_content reg net query "any" per_page2 site
      = (format_response (errDict attrGetMsg), []) ∧
    wp_get_plugins reg net pstatus site
      = (format_response (pluginsSimulated sid), []) := by
  obtain ⟨cfg, hfind⟩ := get_site_id_ok_find? hsite
  have hc := get_client_of_find? hfind
  have hvc : validate_positive_int category_id "category_id" = .ok category_id := by
    simp [validate_positive_int]
    omega
  have hget : ∀ method endpoint params jsonBody,
      clientMethodCall cfg net "get" method endpoint params jsonBody
        = (.error (.attributeError "WordPressClient" "get"), []) := by
    intro m e p j
    simp [clientMethodCall, wordPressClientRequestMethods, opThrow]
  refine ⟨?_, ?_, ?_, ?_, ?_⟩
  · simp [wp_list_media, wp_list_media_body, hsite, hc, hget, liftE, stepBind,
      handleOp, attrGetMsg]
  · simp [wp_get_category, wp_get_category_body, hsite, hc, hvc, hget, liftE,
      stepBind, handleOp, attrGetMsg]
  · simp [wp_get_site_health, wp_get_site_health_body, hsite, hc, hget, liftE,
      stepBind, handleOp, attrGetMsg]
  · simp [wp_search_content, wp_search_content_body, hsite, hc, hget, liftE,
      stepBind, handleOp, attrGetMsg]
  · simp [wp_get_plugins, wp_get_plugins_body, hsite, hc, hget, liftE, stepBind,
      handleOp]

/-- Closed witness: the four envelope-returning operations and wp_get_plugins
on the single-site registry. -/
theorem additional_tools_attribute_error_no_request_witness :
    wp_get_site_health sampleReg1 netNever Option.none
      = (format_response (errDict attrGetMsg), []) ∧
    wp_get_plugins sampleReg1 netNever Option.none Option.none
      = (format_response (pluginsSimulated "blog"), []) := by
  have h := additional_tools_attribute_error_no_request sampleReg1 netNever
    Option.none "blog" rfl 10 1 Option.none Option.none Option.none "desc" "date"
    1 (by norm_num) "q" 10 Option.none
  exact ⟨h.2.2.1, h.2.2.2.2⟩

/-- Claim C3: every embedded operation is total and never lets a failure
escape: its returned string is `format_response` of either the success
payload of its body or the uniform `{status: "error", message}` envelope
built from the failure's message; wp_switch_auth_method likewise returns
either an error envelope or a `status: "success"` payload. -/
theorem operations_uniform_envelope :
    (∀ reg net per_page page search status categories tags author order orderby site,
      (∃ v, (wp_list_posts_body reg net per_page page search status categories tags
          author order orderby site).1 = .ok v ∧
        (wp_list_posts reg net per_page page search status categories tags author
          order orderby site).1 = format_response v) ∨
      (∃ e, (wp_list_posts_body reg net per_page page search status categories tags
          author order orderby site).1 = .error e ∧
        (wp_list_posts reg net per_page page search status categories tags author
          order orderby site).1 = format_response (errDict e.message))) ∧
    (∀ reg net post_id site,
      (∃ v, (wp_get_post_body reg net post_id site).1 = .ok v ∧
        (wp_get_post reg net post_id site).1 = format_response v) ∨
      (∃ e, (wp_get_post_body reg net post_id site).1 = .error e ∧
        (wp_get_post reg net post_id site).1 = format_response (errDict e.message))) ∧
    (∀ reg net post_id title content status excerpt categories tags meta
        featured_media site,
      (∃ v, (wp_update_post_body reg net post_id title content status excerpt
          categories tags meta featured_media site).1 = .ok v ∧
        (wp_update_post reg net post_id title content status excerpt categories
          tags meta featured_media site).1 = format_response v) ∨
      (∃ e, (wp_update_post_body reg net post_id title content status excerpt
          categories tags meta featured_media site).1 = .error e ∧
        (wp_update_post reg net post_id title content status excerpt categories
          tags meta featured_media site).1 = format_response (errDict e.message))) ∧
    (∀ reg net title description url email timezone date_format time_format
        start_of_week language site,
      (∃ v, (wp_update_site_settings_body reg net title description url email
          timezone date_format time_format start_of_week language site).1 = .ok v ∧
        (wp_update_site_settings reg net title description url email timezone
          date_format time_format start_of_week language site).1
            = format_response v) ∨
      (∃ e, (wp_update_site_settings_body reg net title description url email
          timezone date_format time_format start_of_week language site).1
            = .error e ∧
        (wp_update_site_settings reg net title description url email timezone
          date_format time_format start_of_week language site).1
            = format_response (errDict e.message))) ∧
    (∀ reg net user_id force reassign site,
      (∃ v, (wp_delete_user_body reg net user_id force reassign site).1 = .ok v ∧
        (wp_delete_user reg net user_id force reassign site).1
          = format_response v) ∨
      (∃ e, (wp_delete_user_body reg net user_id force reassign site).1
          = .error e ∧
        (wp_delete_user reg net user_id force reassign site).1
          = format_response (errDict e.message))) ∧
    (∀ reg net per_page page search media_type mime_type order orderby site,
      (∃ v, (wp_list_media_body reg net per_page page search media_type mime_type
          order orderby site).1 = .ok v ∧
        (wp_list_media reg net per_page page search media_type mime_type order
          orderby site).1 = format_response v) ∨
      (∃ e, (wp_list_media_body reg net per_page page search media_type mime_type
          order orderby site).1 = .error e ∧
        (wp_list_media reg net per_page page search media_type mime_type order
          orderby site).1 = format_response (errDict e.message))) ∧
    (∀ reg net category_id site,
      (∃ v, (wp_get_category_body reg net category_id site).1 = .ok v ∧
        (wp_get_category reg net category_id site).1 = format_response v) ∨
      (∃ e, (wp_get_category_body reg net category_id site).1 = .error e ∧
        (wp_get_category reg net category_id site).1
          = format_response (errDict e.message))) ∧
    (∀ reg net site,
      (∃ v, (wp_get_site_health_body reg net site).1 = .ok v ∧
        (wp_get_site_health reg net site).1 = format_response v) ∨
      (∃ e, (wp_get_site_health_body reg net site).1 = .error e ∧
        (wp_get_site_health reg net site).1
          = format_response (errDict e.message))) ∧
    (∀ reg net query ty per_page site,
      (∃ v, (wp_search_content_body reg net query ty per_page site).1 = .ok v ∧
        (wp_search_content reg net query ty per_page site).1
          = format_response v) ∨
      (∃ e, (wp_search_content_body reg net query ty per_page site).1 = .error e ∧
        (wp_search_content reg net query ty per_page site).1
          = format_response (errDict e.message))) ∧
    (∀ reg net pstatus site,
      (∃ v, (wp_get_plugins_body reg net pstatus site).1 = .ok v ∧
        (wp_get_plugins reg net pstatus site).1 = format_response v) ∨
      (∃ e, (wp_get_plugins_body reg net pstatus site).1 = .error e ∧
        (wp_get_plugins reg net pstatus site).1
          = format_response (errDict e.message))) ∧
    (∀ reg net auth_method username password site,
      (∃ m, (wp_switch_auth_method reg net auth_method username password site).1.1
          = format_response (errDict m)) ∨
      (∃ v, (wp_switch_auth_method reg net auth_method username password site).1.1
          = format_response v ∧ statusOf v = some "success")) := by
  refine ⟨fun reg net a b c d e f g h i j => handleOp_fst_spec _,
    fun reg net a b => handleOp_fst_spec _,
    fun reg net a b c d e f g h i j => handleOp_fst_spec _,
    fun reg net a b c d e f g h i j => handleOp_fst_spec _,
    fun reg net a b c d => handleOp_fst_spec _,
    fun reg net a b c d e f g h => handleOp_fst_spec _,
    fun reg net a b => handleOp_fst_spec _,
    fun reg net a => handleOp_fst_spec _,
    fun reg net a b c d => handleOp_fst_spec _,
    fun reg net a b => handleOp_fst_spec _,
    ?_⟩
  intro reg net auth_method username password site
  unfold wp_switch_auth_method
  split_ifs with hv
  · split
    · exact Or.inl ⟨_, rfl⟩
    · dsimp only
      split
      · exact Or.inl ⟨_, rfl⟩
      · split
        · dsimp only
          exact Or.inr ⟨_, rfl, rfl⟩
        · exact Or.inl ⟨_, rfl⟩
  · exact Or.inl ⟨_, rfl⟩

/-- Claim C9: wp_switch_auth_method replaces the stored username, secret and
auth method before the verification request is issued (the request already
carries the new credentials); when verification fails the operation returns
the error envelope while the registry retains the new credential values (no
rollback); and the site's id, name and base URL, as well as every other
site's configuration, are unchanged. -/
theorem auth_switch_updates_before_verification (reg : Registry) (net : Net)
    (auth_method username password : String) (site : Option String) (sid : String)
    (hvalid : auth_method = "app-password" ∨ auth_method = "basic-auth")
    (hsite : get_site_id reg site = .ok sid)
    (cfg0 : WordPressConfig) (hfind : reg.find? sid = some cfg0) :
    (wp_switch_auth_method reg net auth_method username password site).2.find? sid
      = some (switchedConfig cfg0 username password (parsedAuthMethod auth_method)) ∧
    (switchedConfig cfg0 username password (parsedAuthMethod auth_method)).username
      = username ∧
    (switchedConfig cfg0 username password (parsedAuthMethod auth_method)).app_password
      = password ∧
    (switchedConfig cfg0 username password (parsedAuthMethod auth_method)).id
      = cfg0.id ∧
    (switchedConfig cfg0 username password (parsedAuthMethod auth_method)).name
      = cfg0.name ∧
    (switchedConfig cfg0 username password (parsedAuthMethod auth_method)).site_url
      = cfg0.site_url ∧
    (∀ k, k ≠ sid →
      (wp_switch_auth_method reg net auth_method username password site).2.find? k
        = reg.find? k) ∧
    (wp_switch_auth_method reg net auth_method username password site).1.2
      = [builtRequest (switchedConfig cfg0 username password
          (parsedAuthMethod auth_method)) "GET" "/" [] Option.none] ∧
    (builtRequest (switchedConfig cfg0 username password
        (parsedAuthMethod auth_method)) "GET" "/" [] Option.none).auth
      = (username, password) ∧
    (∀ e, classifyOutcome (switchedConfig cfg0 username password
          (parsedAuthMethod auth_method)) "/"
          (net (builtRequest (switchedConfig cfg0 username password
            (parsedAuthMethod auth_method)) "GET" "/" [] Option.none)) = .error e →
      (wp_switch_auth_method reg net auth_method username password site).1.1
        = format_response (errDict e.message)) := by
  have hfind1 := registryUpdateCreds_find?_self hfind username password
    (parsedAuthMethod auth_method)
  have hc := get_client_of_find? hfind1
  have hvalid' : auth_method = "app-password" ∨ auth_method = "basic-auth" := hvalid
  have hres : wp_switch_auth_method reg net auth_method username password site
      = (match clientRequest (switchedConfig cfg0 username password
            (parsedAuthMethod auth_method)) net "GET" "/" [] Option.none with
        | (.ok _, tr) =>
          ((format_response (.dict
              [("status", .str "success"),
               ("message", .str ("Authentication method switched to " ++ auth_method)),
               ("site_id", .str sid),
               ("username", .str username),
               ("auth_method", .str auth_method)]), tr),
            registryUpdateCreds reg sid username password (parsedAuthMethod auth_method))
        | (.error e, tr) =>
          ((format_response (errDict e.message), tr),
            registryUpdateCreds reg sid username password (parsedAuthMethod auth_method))) := by
    unfold wp_switch_auth_method
    rw [if_pos hvalid', hsite]
    simp only [hc]
  refine ⟨?_, rfl, rfl, rfl, rfl, rfl, ?_, ?_, rfl, ?_⟩
  · rw [hres]
    cases hr : classifyOutcome (switchedConfig cfg0 username password
        (parsedAuthMethod auth_method)) "/"
        (net (builtRequest (switchedConfig cfg0 username password
          (parsedAuthMethod auth_method)) "GET" "/" [] Option.none)) with
    | ok v =>
        simpa [clientRequest, hr] using hfind1
    | error e =>
        simpa [clientRequest, hr] using hfind1
  · intro k hk
    rw [hres]
    cases hr : classifyOutcome (switchedConfig cfg0 username password
        (parsedAuthMethod auth_method)) "/"
        (net (builtRequest (switchedConfig cfg0 username password
          (parsedAuthMethod auth_method)) "GET" "/" [] Option.none)) with
    | ok v =>
        simpa [clientRequest, hr] using registryUpdateCreds_find?_other hk
          username password (parsedAuthMethod auth_method)
    | error e =>
        simpa [clientRequest, hr] using registryUpdateCreds_find?_other hk
          username password (parsedAuthMethod auth_method)
  · rw [hres]
    cases hr : classifyOutcome (switchedConfig cfg0 username password
        (parsedAuthMethod auth_method)) "/"
        (net (builtRequest (switchedConfig cfg0 username password
          (parsedAuthMethod auth_method)) "GET" "/" [] Option.none)) with
    | ok v => simp [clientRequest, hr]
    | error e => simp [clientRequest, hr]
  · intro e he
    rw [hres]
    simp [clientRequest, he]

/-- Closed witness: switching the single site to basic-auth over a network on
which the verification request fails at the transport level. -/
theorem auth_switch_updates_before_verification_witness :
    (wp_switch_auth_method sampleReg1 netNever "basic-auth" "bob" "pw2"
        Option.none).2.find? "blog"
      = some (switchedConfig cfgBlog "bob" "pw2" (parsedAuthMethod "basic-auth")) ∧
    (wp_switch_auth_method sampleReg1 netNever "basic-auth" "bob" "pw2"
        Option.none).1.1
      = format_response (errDict (WPError.message (.transportFailure "unreachable"))) := by
  have h := auth_switch_updates_before_verification sampleReg1 netNever
    "basic-auth" "bob" "pw2" Option.none "blog" (Or.inr rfl) rfl cfgBlog rfl
  exact ⟨h.1, h.2.2.2.2.2.2.2.2.2 (.transportFailure "unreachable") rfl⟩

end WordPressMCP
